import Mathlib

/-
  Shallow embedding of the polymarket-btc-v3-strategy repository
  (src/simulator.py, src/strategy_core.py).

  Python floats are modelled as exact rationals; Python round(x, n)
  (round half to even at the n-th decimal) is modelled by pyRound.
  Fallible inputs (None in Python) are modelled by Option.
-/

/-- Python round(x, n) to an integer number of 10^-n units:
round half to even. -/
def pyRoundInt (x : ℚ) : ℤ :=
  let f := ⌊x⌋
  let r := x - f
  if r < 1/2 then f
  else if 1/2 < r then f + 1
  else if f % 2 = 0 then f else f + 1

/-- Python round(x, n): round x to n decimal places, ties to even. -/
def pyRound (x : ℚ) (n : ℕ) : ℚ := (pyRoundInt (x * 10 ^ n) : ℚ) / 10 ^ n

theorem pyRoundInt_intCast (m : ℤ) : pyRoundInt (m : ℚ) = m := by
  unfold pyRoundInt
  simp [Int.floor_intCast]

theorem pyRound_of_eq_int {x : ℚ} {n : ℕ} {m : ℤ} (h : x * 10 ^ n = m) :
    pyRound x n = x := by
  unfold pyRound
  rw [h, pyRoundInt_intCast]
  rw [← h]
  field_simp

theorem pyRound_mul_pow (x : ℚ) (n : ℕ) :
    pyRound x n * 10 ^ n = (pyRoundInt (x * 10 ^ n) : ℚ) := by
  unfold pyRound
  field_simp

theorem pyRound_spec (x : ℚ) (n : ℕ) : ∃ m : ℤ, pyRound x n * 10 ^ n = m :=
  ⟨_, pyRound_mul_pow x n⟩

theorem pyRound_idem (x : ℚ) (n : ℕ) : pyRound (pyRound x n) n = pyRound x n :=
  pyRound_of_eq_int (pyRound_mul_pow x n)

/- ── Strategy constants (src/simulator.py lines 43-60) ──────────────────── -/

def INITIAL_CAPITAL : ℚ := 100
def TRADE_PCT : ℚ := 4/100
def MIN_ENTRY_PRICE : ℚ := 15/100
def MAX_ENTRY_PRICE : ℚ := 35/100
def MAX_ENTRY_SPREAD : ℚ := 8/100
def MIN_SECS_TO_ENTER : ℚ := 60
def MAX_SECS_TO_ENTER : ℚ := 240
def TARGET_PRICE : ℚ := 47/100
def PARTIAL_EXIT_PCT : ℚ := 1/2
def SL_PRICE_ABS : ℚ := 1/10
def FEE_RATE : ℚ := 625/10000

/-- estimate_fee (src/simulator.py lines 63-65):
rate = price * (1 - price) * FEE_RATE; round(rate * usdc_amount, 6). -/
def estimate_fee (price usdc_amount : ℚ) : ℚ :=
  pyRound (price * (1 - price) * FEE_RATE * usdc_amount) 6

/- ── Trade (src/simulator.py lines 68-216) ──────────────────────────────── -/

inductive Direction
  | UP
  | DOWN
deriving DecidableEq, Repr

structure Trade where
  id : ℕ
  market : String
  direction : Direction
  entry_price : ℚ
  shares : ℚ
  bet_size : ℚ
  entry_time : String
  secs_at_entry : ℚ
  partial_exit_done : Bool
  shares_remaining : ℚ
  partial_exit_price : Option ℚ
  partial_pnl : Option ℚ
  entry_fee : ℚ
  exit_price : Option ℚ
  exit_fee : ℚ
  pnl : Option ℚ
  pnl_gross : Option ℚ
  status : String
  exit_reason : Option String
deriving DecidableEq, Repr

/-- Trade construction: dataclass fields plus __post_init__
(entry_fee from estimate_fee, shares_remaining initialised to shares). -/
def Trade.new (id : ℕ) (market : String) (direction : Direction)
    (entry_price shares bet_size : ℚ) (entry_time : String)
    (secs_at_entry : ℚ) : Trade :=
  { id := id
    market := market
    direction := direction
    entry_price := entry_price
    shares := shares
    bet_size := bet_size
    entry_time := entry_time
    secs_at_entry := secs_at_entry
    partial_exit_done := false
    shares_remaining := shares
    partial_exit_price := none
    partial_pnl := none
    entry_fee := estimate_fee entry_price bet_size
    exit_price := none
    exit_fee := 0
    pnl := none
    pnl_gross := none
    status := "OPEN"
    exit_reason := none }

/-- Trade.should_partial_exit (lines 100-107): False once the stage is done;
otherwise the price reached the partial-TP zone (same test both directions). -/
def Trade.should_partial_exit (t : Trade) (current_price : ℚ) : Bool :=
  if t.partial_exit_done then false
  else
    match t.direction with
    | Direction.UP => decide (TARGET_PRICE ≤ current_price)
    | Direction.DOWN => decide (TARGET_PRICE ≤ current_price)

/-- Trade.should_sl (lines 109-111). -/
def Trade.should_sl (t : Trade) (current_price : ℚ) : Bool :=
  decide (current_price ≤ SL_PRICE_ABS)

/-- Trade.do_partial_exit (lines 113-130): sells PARTIAL_EXIT_PCT of the
original shares, records the stage P&L, reduces shares_remaining.
Returns the updated trade and the partial P&L. -/
def Trade.do_partial_exit (t : Trade) (exit_price : ℚ) : Trade × ℚ :=
  let shares_to_sell := pyRound (t.shares * PARTIAL_EXIT_PCT) 4
  let proceeds := shares_to_sell * exit_price
  let fee := estimate_fee exit_price proceeds
  let entry_fee_portion := t.entry_fee * PARTIAL_EXIT_PCT
  let pnl := pyRound (proceeds - t.bet_size * PARTIAL_EXIT_PCT
      - entry_fee_portion - fee) 4
  ({ t with
      partial_exit_done := true
      partial_exit_price := some (pyRound exit_price 4)
      partial_pnl := some pnl
      shares_remaining := pyRound (t.shares - shares_to_sell) 4 }, pnl)

/-- The final-tranche P&L computed inside close_binary (lines 137-153):
P&L of the shares liquidated at binary resolution, excluding any
already-settled partial-stage P&L. -/
def Trade.close_binary_final_pnl (t : Trade) (won : Bool) : ℚ :=
  let shares := if t.partial_exit_done then t.shares_remaining else t.shares
  let bet_remaining :=
    if t.partial_exit_done then t.bet_size * (1 - PARTIAL_EXIT_PCT) else t.bet_size
  let entry_fee_remaining :=
    if t.partial_exit_done then t.entry_fee * (1 - PARTIAL_EXIT_PCT) else t.entry_fee
  if won then
    let proceeds := shares * 1
    let exit_fee := estimate_fee 1 proceeds
    pyRound (proceeds - bet_remaining - entry_fee_remaining - exit_fee) 4
  else
    pyRound (-bet_remaining - entry_fee_remaining) 4

/-- Trade.close_binary (lines 132-160): binary resolution of the remaining
shares (or all of them when no partial exit happened); total pnl is the
already-settled partial P&L (0 when absent) plus the final-tranche P&L;
status is WIN exactly when the total pnl is strictly positive. -/
def Trade.close_binary (t : Trade) (won : Bool) (exit_price : ℚ)
    (exit_reason : String) : Trade × ℚ :=
  let shares := if t.partial_exit_done then t.shares_remaining else t.shares
  let exit_fee := if won then estimate_fee 1 (shares * 1) else 0
  let final_pnl := t.close_binary_final_pnl won
  let pnl := pyRound (t.partial_pnl.getD 0 + final_pnl) 4
  ({ t with
      exit_price := some exit_price
      exit_reason := some exit_reason
      exit_fee := exit_fee
      pnl := some pnl
      pnl_gross := some pnl
      status := if 0 < pnl then "WIN" else "LOSS" }, pnl)

/-- The final-tranche P&L computed inside close_market (lines 167-173). -/
def Trade.close_market_final_pnl (t : Trade) (exit_price : ℚ) : ℚ :=
  let shares := if t.partial_exit_done then t.shares_remaining else t.shares
  let bet_rem := t.bet_size * (if t.partial_exit_done then 1 - PARTIAL_EXIT_PCT else 1)
  let entry_fee_rem :=
    t.entry_fee * (if t.partial_exit_done then 1 - PARTIAL_EXIT_PCT else 1)
  let proceeds := shares * exit_price
  let exit_fee := estimate_fee exit_price proceeds
  pyRound (proceeds - bet_rem - entry_fee_rem - exit_fee) 4

/-- Trade.close_market (lines 162-179): market-price exit of the remaining
shares; aggregation and status as in close_binary. -/
def Trade.close_market (t : Trade) (exit_price : ℚ)
    (exit_reason : String) : Trade × ℚ :=
  let shares := if t.partial_exit_done then t.shares_remaining else t.shares
  let proceeds := shares * exit_price
  let exit_fee := estimate_fee exit_price proceeds
  let final_pnl := t.close_market_final_pnl exit_price
  let pnl := pyRound (t.partial_pnl.getD 0 + final_pnl) 4
  ({ t with
      exit_price := some (pyRound exit_price 4)
      exit_reason := some exit_reason
      exit_fee := exit_fee
      pnl := some pnl
      pnl_gross := some pnl
      status := if 0 < pnl then "WIN" else "LOSS" }, pnl)

/-- Trade.unrealized_pnl (lines 181-188). -/
def Trade.unrealized_pnl (t : Trade) (current_price : ℚ) : ℚ :=
  let shares := if t.partial_exit_done then t.shares_remaining else t.shares
  let bet_rem := t.bet_size * (if t.partial_exit_done then 1 - PARTIAL_EXIT_PCT else 1)
  let ef_rem := t.entry_fee * (if t.partial_exit_done then 1 - PARTIAL_EXIT_PCT else 1)
  let proceeds := shares * current_price
  let exit_fee := estimate_fee current_price proceeds
  pyRound (t.partial_pnl.getD 0 + proceeds - bet_rem - ef_rem - exit_fee) 4

/- ── Portfolio (src/simulator.py lines 219-552) ─────────────────────────── -/

/-- Depth-walk result dict as consumed by consider_entry
("avg_price", "shares" keys). -/
structure Depth where
  avg_price : ℚ
  shares : ℚ
deriving DecidableEq, Repr

/-- Portfolio state. The persistence collaborator (db) is external I/O and
carries no simulation state, so it is not modelled; the `signal` argument of
consider_entry/check_exits is never read by the source and is omitted. -/
structure Portfolio where
  initial_capital : ℚ
  capital : ℚ
  trade_pct : ℚ
  active_trade : Option Trade
  closed_trades : List Trade
  pnl_history : List ℚ
  trade_counter : ℕ
deriving DecidableEq, Repr

/-- Portfolio.__init__ (lines 220-229). -/
def Portfolio.init (initial_capital trade_pct : ℚ) : Portfolio :=
  { initial_capital := initial_capital
    capital := initial_capital
    trade_pct := trade_pct
    active_trade := none
    closed_trades := []
    pnl_history := [0]
    trade_counter := 0 }

/-- Portfolio.current_price_for_trade (lines 463-466). -/
def Portfolio.current_price_for_trade (pf : Portfolio)
    (up_price down_price : ℚ) : ℚ :=
  match pf.active_trade with
  | none => 0
  | some t =>
    match t.direction with
    | Direction.UP => up_price
    | Direction.DOWN => down_price

/-- The side-specific tail of consider_entry once FILTRO 2 has chosen a
direction, its candidate price, its depth-walk dict and its bid
(lines 282-318): spread filter, depth-walk repricing, re-check of the
entry zone, then capital debit and trade construction. -/
def Portfolio.considerSide (pf : Portfolio) (market_question : String)
    (direction : Direction) (entry_price0 : ℚ) (entry_depth : Option Depth)
    (bid_price : Option ℚ) (s : ℚ) (now : String) : Bool × Portfolio :=
  let spread_reject : Bool :=
    match bid_price with
    | some b => decide (0 < b ∧ 0 < entry_price0 ∧
        MAX_ENTRY_SPREAD < (entry_price0 - b) / entry_price0)
    | none => false
  if spread_reject then (false, pf)
  else
    let priced : ℚ × ℚ :=
      match entry_depth with
      | some d =>
        if 0 < d.shares then (d.avg_price, d.shares)
        else (entry_price0,
          pyRound (pyRound (pf.capital * pf.trade_pct) 2 / entry_price0) 4)
      | none => (entry_price0,
          pyRound (pyRound (pf.capital * pf.trade_pct) 2 / entry_price0) 4)
    let entry_price := priced.1
    let shares := priced.2
    let bet_size := pyRound (pf.capital * pf.trade_pct) 2
    if MIN_ENTRY_PRICE ≤ entry_price ∧ entry_price ≤ MAX_ENTRY_PRICE then
      let t := Trade.new (pf.trade_counter + 1) market_question direction
        entry_price shares bet_size now s
      (true, { pf with
          capital := pyRound (pf.capital - bet_size) 4
          trade_counter := pf.trade_counter + 1
          active_trade := some t })
    else (false, pf)

/-- Portfolio.consider_entry (lines 240-318): guards in source order —
open trade, capital < 1, missing/too-small/too-large secs_left, cheap-side
selection (UP preferred), then the side-specific tail. `now` stands for the
datetime.utcnow timestamp taken at entry. -/
def Portfolio.consider_entry (pf : Portfolio) (market_question : String)
    (up_price down_price : ℚ) (secs_left : Option ℚ)
    (entry_depth_up entry_depth_down : Option Depth)
    (up_bid down_bid : Option ℚ) (now : String) : Bool × Portfolio :=
  if pf.active_trade.isSome then (false, pf)
  else if pf.capital < 1 then (false, pf)
  else
    match secs_left with
    | none => (false, pf)
    | some s =>
      if s < MIN_SECS_TO_ENTER then (false, pf)
      else if MAX_SECS_TO_ENTER < s then (false, pf)
      else
        if MIN_ENTRY_PRICE ≤ up_price ∧ up_price ≤ MAX_ENTRY_PRICE then
          pf.considerSide market_question Direction.UP up_price
            entry_depth_up up_bid s now
        else if MIN_ENTRY_PRICE ≤ down_price ∧ down_price ≤ MAX_ENTRY_PRICE then
          pf.considerSide market_question Direction.DOWN down_price
            entry_depth_down down_bid s now
        else (false, pf)

/-- Portfolio.check_exits (lines 322-348): partial TP first, then hard SL,
then the late-time exit that fires only on strictly positive unrealized
P&L; otherwise no exit. -/
def Portfolio.check_exits (pf : Portfolio) (up_price down_price : ℚ)
    (secs_left : Option ℚ) : Option String :=
  match pf.active_trade with
  | none => none
  | some trade =>
    let current_price := pf.current_price_for_trade up_price down_price
    if trade.should_partial_exit current_price then some "PARTIAL_TP"
    else if trade.should_sl current_price then some "SL"
    else
      match secs_left with
      | some s =>
        if s ≤ 30 then
          if 0 < trade.unrealized_pnl current_price then some "LATE" else none
        else none
      | none => none

/-- Portfolio.apply_partial_exit (lines 350-364): executes the partial exit
at the supplied bid (falling back to the trade's current mid) and credits
capital with half the bet plus the partial P&L. -/
def Portfolio.apply_partial_exit (pf : Portfolio) (up_price down_price : ℚ)
    (exit_bid_price : Option ℚ) : Portfolio × Option ℚ :=
  match pf.active_trade with
  | none => (pf, none)
  | some trade =>
    let cp := exit_bid_price.getD (pf.current_price_for_trade up_price down_price)
    let res := trade.do_partial_exit cp
    let returned := pyRound (trade.bet_size * PARTIAL_EXIT_PCT + res.2) 4
    ({ pf with
        capital := pyRound (pf.capital + returned) 4
        active_trade := some res.1 }, some res.2)

/-- Portfolio._finalize_trade (lines 435-445). -/
def Portfolio.finalize_trade (pf : Portfolio) (trade : Trade) : Portfolio :=
  let total_pnl := pyRound (pf.capital - pf.initial_capital) 4
  { pf with
      pnl_history := pf.pnl_history ++ [total_pnl]
      closed_trades := pf.closed_trades ++ [trade]
      active_trade := none }

/-- Portfolio.exit_at_market_price: the SECOND definition in the source
(lines 386-408) — in Python the later definition of the same method name
shadows the earlier one (lines 366-384), so this is the effective code.
Closes the whole remaining position; when a partial exit already ran, the
already-credited partial P&L is subtracted from the aggregate pnl so only
the remaining tranche's bet and final P&L are credited. -/
def Portfolio.exit_at_market_price (pf : Portfolio) (up_price down_price : ℚ)
    (exit_reason : String) (exit_bid_price : Option ℚ) :
    Portfolio × Option Trade :=
  match pf.active_trade with
  | none => (pf, none)
  | some trade =>
    let cp := exit_bid_price.getD (pf.current_price_for_trade up_price down_price)
    let res := trade.close_market cp exit_reason
    let pf' :=
      if res.1.partial_exit_done then
        let bet_remaining := res.1.bet_size * (1 - PARTIAL_EXIT_PCT)
        let final_only := res.2 - res.1.partial_pnl.getD 0
        { pf with capital := pyRound (pf.capital + bet_remaining + final_only) 4 }
      else
        { pf with capital := pyRound (pf.capital + res.1.bet_size + res.2) 4 }
    (pf'.finalize_trade res.1, some res.1)

/-- The winner determination of close_trade (lines 417-420): forced result
when supplied, else the trade's side won when its price is at least 0.5. -/
def resolveWinner (trade : Trade) (up_price down_price : ℚ)
    (force_winner : Option Bool) : Bool :=
  match force_winner with
  | some w => w
  | none =>
    match trade.direction with
    | Direction.UP => decide ((1:ℚ)/2 ≤ up_price)
    | Direction.DOWN => decide ((1:ℚ)/2 ≤ down_price)

/-- Portfolio.close_trade (lines 410-433): binary resolution at expiry. -/
def Portfolio.close_trade (pf : Portfolio) (up_price down_price : ℚ)
    (force_winner : Option Bool) : Portfolio × Option Trade :=
  match pf.active_trade with
  | none => (pf, none)
  | some trade =>
    let won := resolveWinner trade up_price down_price force_winner
    let exit_price : ℚ := if won then 1 else 0
    let res := trade.close_binary won exit_price "EXPIRE"
    let pf' :=
      if res.1.partial_exit_done then
        let bet_remaining := res.1.bet_size * (1 - PARTIAL_EXIT_PCT)
        let final_only := res.2 - res.1.partial_pnl.getD 0
        { pf with capital := pyRound (pf.capital + bet_remaining + final_only) 4 }
      else
        { pf with capital := pyRound (pf.capital + res.1.bet_size + res.2) 4 }
    (pf'.finalize_trade res.1, some res.1)

/-- Portfolio.cancel_active_trade (lines 447-459): marks the active trade
CANCELLED/FORCED, appends it to closed_trades and clears the slot. The
source never touches pf.capital here. -/
def Portfolio.cancel_active_trade (pf : Portfolio) : Portfolio :=
  match pf.active_trade with
  | none => pf
  | some t =>
    { pf with
        closed_trades := pf.closed_trades ++
          [{ t with status := "CANCELLED", exit_reason := some "FORCED" }]
        active_trade := none }

/- ── Order book metrics (src/strategy_core.py lines 139-183) ────────────── -/

def TOP_LEVELS : ℕ := 15

/-- One order-book level: (price, size). -/
structure Level where
  price : ℚ
  size : ℚ
deriving DecidableEq, Repr

/-- Bid ordering: descending by price (sorted(..., reverse=True)). -/
def bidGE (a b : Level) : Prop := b.price ≤ a.price

/-- Ask ordering: ascending by price. -/
def askLE (a b : Level) : Prop := a.price ≤ b.price

instance : DecidableRel bidGE := fun a b => inferInstanceAs (Decidable (b.price ≤ a.price))

instance : DecidableRel askLE := fun a b => inferInstanceAs (Decidable (a.price ≤ b.price))

/-- sum(float(b.size) for b in levels). -/
def sumSize (ls : List Level) : ℚ := (ls.map Level.size).sum

/-- sum(float(b.price) * float(b.size) for b in levels). -/
def sumPriceSize (ls : List Level) : ℚ := (ls.map fun l => l.price * l.size).sum

/-- First retained price, 0 on an empty side (best_bid / best_ask locals). -/
def bestPrice (ls : List Level) : ℚ :=
  match ls with
  | [] => 0
  | l :: _ => l.price

/-- The vwap_mid computation of get_order_book_metrics (lines 157-162),
applied to the already sorted-and-truncated level lists. -/
def vwapMid (bids asks : List Level) : ℚ :=
  let bid_vol := sumSize bids
  let ask_vol := sumSize asks
  let total := bid_vol + ask_vol
  if 0 < total then
    let bvwap := if 0 < bid_vol then sumPriceSize bids / bid_vol else 0
    let avwap := if 0 < ask_vol then sumPriceSize asks / ask_vol else 0
    (bvwap * bid_vol + avwap * ask_vol) / total
  else (bestPrice bids + bestPrice asks) / 2

/-- The BookMetrics dict returned by get_order_book_metrics. -/
structure BookMetrics where
  bid_volume : ℚ
  ask_volume : ℚ
  total_volume : ℚ
  obi : ℚ
  depth_pressure : ℚ
  best_bid : ℚ
  best_ask : ℚ
  spread : ℚ
  spread_pct : ℚ
  vwap_mid : ℚ
  num_bids : ℕ
  num_asks : ℕ
  top_bids : List (ℚ × ℚ)
  top_asks : List (ℚ × ℚ)
deriving DecidableEq, Repr

/-- get_order_book_metrics (lines 139-183) on a fetched book: sort bids
descending and asks ascending, truncate to top_n, then derive the metrics.
The HTTP fetch and its error path are external I/O and not modelled. -/
def get_order_book_metrics (rawBids rawAsks : List Level)
    (top_n : ℕ) : BookMetrics :=
  let bids := (List.insertionSort bidGE rawBids).take top_n
  let asks := (List.insertionSort askLE rawAsks).take top_n
  let bid_vol := sumSize bids
  let ask_vol := sumSize asks
  let total := bid_vol + ask_vol
  let obi := if 0 < total then (bid_vol - ask_vol) / total else 0
  let best_bid := bestPrice bids
  let best_ask := bestPrice asks
  let spread := pyRound (best_ask - best_bid) 4
  let top3_bid := sumSize (bids.take 3)
  let top3_ask := sumSize (asks.take 3)
  let depth_pressure :=
    if 0 < top3_bid + top3_ask then (top3_bid - top3_ask) / (top3_bid + top3_ask)
    else 0
  { bid_volume := pyRound bid_vol 2
    ask_volume := pyRound ask_vol 2
    total_volume := pyRound total 2
    obi := pyRound obi 4
    depth_pressure := pyRound depth_pressure 4
    best_bid := pyRound best_bid 4
    best_ask := pyRound best_ask 4
    spread := spread
    spread_pct := if 0 < best_ask then pyRound (spread / best_ask) 4 else 1
    vwap_mid := pyRound (vwapMid bids asks) 4
    num_bids := rawBids.length
    num_asks := rawAsks.length
    top_bids := (bids.take 8).map fun b => (pyRound b.price 4, pyRound b.size 2)
    top_asks := (asks.take 8).map fun a => (pyRound a.price 4, pyRound a.size 2) }

/- ── Signal engine v4 (src/strategy_core.py lines 220-373) ──────────────── -/

def W_OBI : ℚ := 35/100
def W_MOM : ℚ := 30/100
def W_DIV : ℚ := 35/100

/-- SYMBOL env var defaults to "SOL" (line 31); only the momentum scale
depends on it, which no claim touches. -/
def SYMBOL : String := "SOL"

def momScale : ℚ := if SYMBOL = "SOL" then 67 else if SYMBOL = "BTC" then 125 else 80

/-- The "divergence" sub-dict of the PriceFeed snapshot. -/
structure DivInfo where
  direction : String
  strength : ℚ
deriving DecidableEq, Repr

/-- PriceFeed snapshot fields read by compute_signal. -/
structure PriceSnap where
  available : Bool
  mom_30s : ℚ
  mom_60s : ℚ
  divergence : DivInfo
deriving DecidableEq, Repr

/-- The EMA smoothing of the OBI window (lines 244-251): seed with the most
recent window entry, fold backwards over the older ones with alpha = 0.35;
an empty window yields the instantaneous combined_obi. -/
def emaObi (combined_obi : ℚ) (obi_window : List ℚ) : ℚ :=
  match obi_window.getLast? with
  | none => combined_obi
  | some last =>
    obi_window.dropLast.reverse.foldl
      (fun e val => 35/100 * val + (1 - 35/100) * e) last

/-- obi_component (lines 253-262): 55/45 blend of instantaneous and EMA OBI
plus the depth-pressure boost. -/
def obiComponent (combined_obi : ℚ) (obi_window : List ℚ)
    (up_ob down_ob : Option BookMetrics) : ℚ :=
  let base := 55/100 * combined_obi + 45/100 * emaObi combined_obi obi_window
  let dp_boost :=
    match up_ob, down_ob with
    | some u, some d => (u.depth_pressure - d.depth_pressure) * (10/100)
    | some u, none => u.depth_pressure * (10/100)
    | none, _ => 0
  pyRound (base + dp_boost) 4

/-- mom_component (lines 273-280). -/
def momComponent (ps : PriceSnap) : ℚ :=
  let raw_mom := 4/10 * ps.mom_30s + 6/10 * ps.mom_60s
  pyRound (max (-1) (min 1 (raw_mom * momScale))) 4

/-- div_component (lines 282-288). -/
def divComponent (ps : PriceSnap) : ℚ :=
  if ps.divergence.direction = "UP" then ps.divergence.strength
  else if ps.divergence.direction = "DOWN" then -ps.divergence.strength
  else 0

/-- The fused score before the spread penalty (lines 307-317): weighted
OBI + momentum + divergence when price data is available, OBI-only
otherwise. -/
def fusedScore (combined_obi : ℚ) (obi_window : List ℚ)
    (up_ob down_ob : Option BookMetrics) (price_snap : Option PriceSnap) : ℚ :=
  let oc := obiComponent combined_obi obi_window up_ob down_ob
  match price_snap with
  | some ps =>
    if ps.available then
      pyRound (W_OBI * oc + W_MOM * momComponent ps + W_DIV * divComponent ps) 4
    else pyRound oc 4
  | none => pyRound oc 4

/-- spread_penalty (lines 320-324). -/
def spreadPenalty (up_ob : Option BookMetrics) : ℚ :=
  match up_ob with
  | some u =>
    if 8/100 < u.spread_pct then max (3/10) (1 - (u.spread_pct - 8/100) * 5)
    else 1
  | none => 1

/-- Python int(): truncation toward zero. -/
def pyInt (x : ℚ) : ℤ := if 0 ≤ x then ⌊x⌋ else -⌊-x⌋

/-- The Signal dict fields produced by compute_signal that carry decision
state (display-only echoes of the inputs are omitted). -/
structure Signal where
  label : String
  color : String
  confidence : ℤ
  combined : ℚ
  confirmed : Bool
  effective_threshold : ℚ
  spread_penalty : ℚ
  obi_component : ℚ
  mom_component : ℚ
  div_component : ℚ
  price_available : Bool
  obi_ema : ℚ
deriving DecidableEq, Repr

/-- compute_signal (lines 229-373). -/
def compute_signal (combined_obi : ℚ) (obi_window : List ℚ) (threshold : ℚ)
    (up_ob down_ob : Option BookMetrics)
    (price_snap : Option PriceSnap) : Signal :=
  let oc := obiComponent combined_obi obi_window up_ob down_ob
  let price_available :=
    match price_snap with
    | some ps => ps.available
    | none => false
  let mc :=
    match price_snap with
    | some ps => if ps.available then momComponent ps else 0
    | none => 0
  let dc :=
    match price_snap with
    | some ps => if ps.available then divComponent ps else 0
    | none => 0
  let confirmed :=
    if price_available then
      let obi_sign : ℤ := if 0 < oc then 1 else if oc < 0 then -1 else 0
      let mom_sign : ℤ := if 0 < mc then 1 else if mc < 0 then -1 else 0
      decide (obi_sign = mom_sign ∧ obi_sign ≠ 0)
    else false
  let combined0 := fusedScore combined_obi obi_window up_ob down_ob price_snap
  let penalty := spreadPenalty up_ob
  let combined := pyRound (combined0 * penalty) 4
  let abs_c := |combined|
  let effective_threshold := threshold * (if confirmed then 75/100 else 1)
  /- label/color/confidence are assigned in the if/elif/else (lines 332-345)
  and the function returns a single dict (lines 347-373). -/
  let lcc : String × String × ℤ :=
    if effective_threshold < combined then
      let base_conf := pyInt (55 + abs_c / threshold * 30)
      (if effective_threshold * (18/10) < combined then "STRONG UP" else "UP",
        "green", min (base_conf + (if confirmed then 8 else 0)) 97)
    else if combined < -effective_threshold then
      let base_conf := pyInt (55 + abs_c / threshold * 30)
      (if combined < -(effective_threshold * (18/10)) then "STRONG DOWN" else "DOWN",
        "red", min (base_conf + (if confirmed then 8 else 0)) 97)
    else ("NEUTRAL", "yellow", 50)
  { label := lcc.1
    color := lcc.2.1
    confidence := lcc.2.2
    combined := combined
    confirmed := confirmed
    effective_threshold := effective_threshold
    spread_penalty := penalty
    obi_component := oc
    mom_component := mc
    div_component := dc
    price_available := price_available
    obi_ema := pyRound (emaObi combined_obi obi_window) 4 }

/- ── Shared helper lemmas ───────────────────────────────────────────────── -/

theorem tenpow_add {x y : ℚ} {n : ℕ}
    (hx : ∃ m : ℤ, x * 10 ^ n = m) (hy : ∃ m : ℤ, y * 10 ^ n = m) :
    ∃ m : ℤ, (x + y) * 10 ^ n = m := by
  obtain ⟨a, ha⟩ := hx
  obtain ⟨b, hb⟩ := hy
  exact ⟨a + b, by push_cast; linear_combination ha + hb⟩

theorem dec2_half {x : ℚ} (hx : ∃ m : ℤ, x * 10 ^ 2 = m) :
    ∃ m : ℤ, x * (1 - PARTIAL_EXIT_PCT) * 10 ^ 4 = m := by
  obtain ⟨a, ha⟩ := hx
  refine ⟨a * 50, ?_⟩
  rw [PARTIAL_EXIT_PCT]
  push_cast
  linear_combination (50:ℚ) * ha

theorem dec2_dec4 {x : ℚ} (hx : ∃ m : ℤ, x * 10 ^ 2 = m) :
    ∃ m : ℤ, x * 10 ^ 4 = m := by
  obtain ⟨a, ha⟩ := hx
  exact ⟨a * 100, by push_cast; linear_combination (100:ℚ) * ha⟩

theorem close_market_final_pnl_spec (t : Trade) (cp : ℚ) :
    ∃ m : ℤ, t.close_market_final_pnl cp * 10 ^ 4 = m := by
  simp only [Trade.close_market_final_pnl]
  exact pyRound_spec _ 4

theorem close_binary_final_pnl_spec (t : Trade) (won : Bool) :
    ∃ m : ℤ, t.close_binary_final_pnl won * 10 ^ 4 = m := by
  simp only [Trade.close_binary_final_pnl]
  cases won <;> simp <;> exact pyRound_spec _ 4

theorem finalize_trade_capital (x : Portfolio) (tr : Trade) :
    (x.finalize_trade tr).capital = x.capital := rfl

/- ── C1 ─────────────────────────────────────────────────────────────────── -/

/-- C1: closing an active trade via exit_at_market_price or close_trade
credits capital with exactly the committed capital of the tranche being
liquidated plus that tranche's own realized P&L. After a partial exit
(partial P&L pp already settled by apply_partial_exit), the credit is
bet_size * (1 - PARTIAL_EXIT_PCT) plus the final tranche's standalone P&L,
never re-adding pp; with no prior partial exit the credit is bet_size plus
the trade's full P&L. Capital is held at 4 decimals, bet sizes at 2, and
settled partial P&L at 4, as the source's rounding maintains. -/
theorem c1_exit_credits (pf : Portfolio) (t : Trade) (up down : ℚ)
    (reason : String) (exit_bid : Option ℚ) (force_winner : Option Bool) (pp : ℚ)
    (ha : pf.active_trade = some t)
    (hcap : ∃ m : ℤ, pf.capital * 10 ^ 4 = m)
    (hbet : ∃ m : ℤ, t.bet_size * 10 ^ 2 = m) :
    (t.partial_exit_done = true → t.partial_pnl = some pp →
      (∃ m : ℤ, pp * 10 ^ 4 = m) →
      ((pf.exit_at_market_price up down reason exit_bid).1.capital
          = pf.capital + t.bet_size * (1 - PARTIAL_EXIT_PCT)
            + t.close_market_final_pnl
                (exit_bid.getD (pf.current_price_for_trade up down))
        ∧ (pf.close_trade up down force_winner).1.capital
          = pf.capital + t.bet_size * (1 - PARTIAL_EXIT_PCT)
            + t.close_binary_final_pnl (resolveWinner t up down force_winner)))
    ∧ (t.partial_exit_done = false → t.partial_pnl = none →
      ((pf.exit_at_market_price up down reason exit_bid).1.capital
          = pf.capital + t.bet_size
            + (t.close_market (exit_bid.getD (pf.current_price_for_trade up down))
                reason).2
        ∧ (pf.close_trade up down force_winner).1.capital
          = pf.capital + t.bet_size
            + (t.close_binary (resolveWinner t up down force_winner)
                (if resolveWinner t up down force_winner then 1 else 0)
                "EXPIRE").2)) := by
  constructor
  · intro hdone hpp hpp4
    constructor
    · set cp := exit_bid.getD (pf.current_price_for_trade up down) with hcpdef
      have h1 : (t.close_market cp reason).1.partial_exit_done
          = t.partial_exit_done := rfl
      have h2 : (t.close_market cp reason).1.bet_size = t.bet_size := rfl
      have h3 : (t.close_market cp reason).1.partial_pnl = t.partial_pnl := rfl
      have h4 : (t.close_market cp reason).2
          = pyRound (t.partial_pnl.getD 0 + t.close_market_final_pnl cp) 4 := rfl
      obtain ⟨s, hs⟩ := tenpow_add hpp4 (close_market_final_pnl_spec t cp)
      have hppF : pyRound (pp + t.close_market_final_pnl cp) 4
          = pp + t.close_market_final_pnl cp := pyRound_of_eq_int hs
      unfold Portfolio.exit_at_market_price
      rw [ha]
      simp only [h1, hdone, if_true, h2, h3, hpp, h4, Option.getD_some]
      rw [finalize_trade_capital, hppF]
      have harith : pf.capital + t.bet_size * (1 - PARTIAL_EXIT_PCT)
          + (pp + t.close_market_final_pnl cp - pp)
          = pf.capital + t.bet_size * (1 - PARTIAL_EXIT_PCT)
            + t.close_market_final_pnl cp := by ring
      rw [harith]
      obtain ⟨c, hc⟩ := hcap
      obtain ⟨b, hb⟩ := dec2_half hbet
      obtain ⟨f, hf⟩ := close_market_final_pnl_spec t cp
      exact pyRound_of_eq_int (m := c + b + f)
        (by push_cast; linear_combination hc + hb + hf)
    · have h1 : (t.close_binary (resolveWinner t up down force_winner)
          (if resolveWinner t up down force_winner then 1 else 0)
          "EXPIRE").1.partial_exit_done = t.partial_exit_done := rfl
      have h2 : (t.close_binary (resolveWinner t up down force_winner)
          (if resolveWinner t up down force_winner then 1 else 0)
          "EXPIRE").1.bet_size = t.bet_size := rfl
      have h3 : (t.close_binary (resolveWinner t up down force_winner)
          (if resolveWinner t up down force_winner then 1 else 0)
          "EXPIRE").1.partial_pnl = t.partial_pnl := rfl
      have h4 : (t.close_binary (resolveWinner t up down force_winner)
          (if resolveWinner t up down force_winner then 1 else 0) "EXPIRE").2
          = pyRound (t.partial_pnl.getD 0
              + t.close_binary_final_pnl (resolveWinner t up down force_winner)) 4 := rfl
      obtain ⟨s, hs⟩ := tenpow_add hpp4
        (close_binary_final_pnl_spec t (resolveWinner t up down force_winner))
      have hppF : pyRound (pp
          + t.close_binary_final_pnl (resolveWinner t up down force_winner)) 4
          = pp + t.close_binary_final_pnl (resolveWinner t up down force_winner) :=
        pyRound_of_eq_int hs
      unfold Portfolio.close_trade
      rw [ha]
      simp only [h1, hdone, if_true, h2, h3, hpp, h4, Option.getD_some]
      rw [finalize_trade_capital, hppF]
      have harith : pf.capital + t.bet_size * (1 - PARTIAL_EXIT_PCT)
          + (pp + t.close_binary_final_pnl (resolveWinner t up down force_winner) - pp)
          = pf.capital + t.bet_size * (1 - PARTIAL_EXIT_PCT)
            + t.close_binary_final_pnl (resolveWinner t up down force_winner) := by
        ring
      rw [harith]
      obtain ⟨c, hc⟩ := hcap
      obtain ⟨b, hb⟩ := dec2_half hbet
      obtain ⟨f, hf⟩ := close_binary_final_pnl_spec t
        (resolveWinner t up down force_winner)
      exact pyRound_of_eq_int (m := c + b + f)
        (by push_cast; linear_combination hc + hb + hf)
  · intro hdone hpp
    constructor
    · set cp := exit_bid.getD (pf.current_price_for_trade up down) with hcpdef
      have h1 : (t.close_market cp reason).1.partial_exit_done
          = t.partial_exit_done := rfl
      have h2 : (t.close_market cp reason).1.bet_size = t.bet_size := rfl
      have hres : ∃ m : ℤ, (t.close_market cp reason).2 * 10 ^ 4 = m := by
        have h4 : (t.close_market cp reason).2
            = pyRound (t.partial_pnl.getD 0 + t.close_market_final_pnl cp) 4 := rfl
        rw [h4]
        exact pyRound_spec _ 4
      unfold Portfolio.exit_at_market_price
      rw [ha]
      simp only [h1, hdone, Bool.false_eq_true, if_false, h2]
      rw [finalize_trade_capital]
      obtain ⟨c, hc⟩ := hcap
      obtain ⟨b, hb⟩ := dec2_dec4 hbet
      obtain ⟨f, hf⟩ := hres
      exact pyRound_of_eq_int (m := c + b + f)
        (by push_cast; linear_combination hc + hb + hf)
    · have h1 : (t.close_binary (resolveWinner t up down force_winner)
          (if resolveWinner t up down force_winner then 1 else 0)
          "EXPIRE").1.partial_exit_done = t.partial_exit_done := rfl
      have h2 : (t.close_binary (resolveWinner t up down force_winner)
          (if resolveWinner t up down force_winner then 1 else 0)
          "EXPIRE").1.bet_size = t.bet_size := rfl
      have hres : ∃ m : ℤ, (t.close_binary (resolveWinner t up down force_winner)
          (if resolveWinner t up down force_winner then 1 else 0) "EXPIRE").2
            * 10 ^ 4 = m := by
        have h4 : (t.close_binary (resolveWinner t up down force_winner)
            (if resolveWinner t up down force_winner then 1 else 0) "EXPIRE").2
            = pyRound (t.partial_pnl.getD 0
                + t.close_binary_final_pnl (resolveWinner t up down force_winner)) 4 :=
          rfl
        rw [h4]
        exact pyRound_spec _ 4
      unfold Portfolio.close_trade
      rw [ha]
      simp only [h1, hdone, Bool.false_eq_true, if_false, h2]
      rw [finalize_trade_capital]
      obtain ⟨c, hc⟩ := hcap
      obtain ⟨b, hb⟩ := dec2_dec4 hbet
      obtain ⟨f, hf⟩ := hres
      exact pyRound_of_eq_int (m := c + b + f)
        (by push_cast; linear_combination hc + hb + hf)

/-- A partially exited trade for instantiating C1 (partial stage settled
with partial_pnl = 0.0023, bet 4.00, capital 96.0000 in the portfolio). -/
def t1w : Trade :=
  { id := 1, market := "m", direction := Direction.UP, entry_price := 3/10
    shares := 133333/10000, bet_size := 4, entry_time := "t", secs_at_entry := 120
    partial_exit_done := true, shares_remaining := 66667/10000
    partial_exit_price := some (47/100), partial_pnl := some (23/10000)
    entry_fee := 525/10000, exit_price := none, exit_fee := 0, pnl := none
    pnl_gross := none, status := "OPEN", exit_reason := none }

def pf1w : Portfolio :=
  { initial_capital := 100, capital := 96, trade_pct := 4/100
    active_trade := some t1w, closed_trades := [], pnl_history := [0]
    trade_counter := 1 }

/-- C1 witness: the partial-done credit equalities at a concrete portfolio. -/
theorem c1_exit_credits_witness :
    (pf1w.exit_at_market_price (32/100) (68/100) "SL" none).1.capital
      = pf1w.capital + t1w.bet_size * (1 - PARTIAL_EXIT_PCT)
        + t1w.close_market_final_pnl
            ((none : Option ℚ).getD (pf1w.current_price_for_trade (32/100) (68/100)))
    ∧ (pf1w.close_trade (32/100) (68/100) none).1.capital
      = pf1w.capital + t1w.bet_size * (1 - PARTIAL_EXIT_PCT)
        + t1w.close_binary_final_pnl (resolveWinner t1w (32/100) (68/100) none) :=
  (c1_exit_credits pf1w t1w (32/100) (68/100) "SL" none none (23/10000) rfl
    ⟨960000, by norm_num [pf1w]⟩ ⟨400, by norm_num [t1w]⟩).1 rfl rfl
    ⟨23, by norm_num⟩

/- ── C2 ─────────────────────────────────────────────────────────────────── -/

/-- The C2 scenario trade: entry price 0.10, bet 1.00,
shares sized as round(bet / price, 4). -/
def c2Trade : Trade :=
  Trade.new 1 "mkt" Direction.UP (1/10) (pyRound ((1:ℚ) / (1/10)) 4) 1 "t0" 120

/-- C2 counterexample: for the claimed scenario the code's binary-win pnl is
8.9944 (= round(10.0 - 1.00 - 0.005625, 4)), not approximately 8.9375 —
it misses the claimed value by more than 0.01. -/
theorem c2_win_pnl_counterexample :
    (c2Trade.close_binary true 1 "EXPIRE").2 = 89944/10000
    ∧ ¬ |(c2Trade.close_binary true 1 "EXPIRE").2 - 89375/10000| ≤ 1/100 := by
  constructor
  · norm_num [c2Trade, Trade.new, Trade.close_binary, Trade.close_binary_final_pnl,
      estimate_fee, FEE_RATE, pyRound, pyRoundInt]
  · norm_num [c2Trade, Trade.new, Trade.close_binary, Trade.close_binary_final_pnl,
      estimate_fee, FEE_RATE, pyRound, pyRoundInt, abs_le]

/-- C2 amended: entry 0.10, bet 1.00 gives shares = 10.0 pre-fee and
entry_fee = 0.005625; a binary win (exit price 1.0, exit fee 0) yields
pnl = round(10.0 - 1.00 - entry_fee, 4) = 8.9944, and a binary loss yields
pnl = round(-1.00 - entry_fee, 4) = -1.0056. -/
theorem c2_scenario_amended :
    c2Trade.shares = 10
    ∧ c2Trade.entry_fee = 5625/1000000
    ∧ (c2Trade.close_binary true 1 "EXPIRE").2 = 89944/10000
    ∧ (c2Trade.close_binary true 1 "EXPIRE").1.exit_fee = 0
    ∧ (c2Trade.close_binary false 0 "EXPIRE").2 = -(10056/10000) := by
  refine ⟨?_, ?_, ?_, ?_, ?_⟩ <;>
    norm_num [c2Trade, Trade.new, Trade.close_binary, Trade.close_binary_final_pnl,
      estimate_fee, FEE_RATE, pyRound, pyRoundInt]

/- ── C3 ─────────────────────────────────────────────────────────────────── -/

theorem sumPriceSize_le_hi {ls : List Level} {hi : ℚ}
    (hp : ∀ l ∈ ls, l.price ≤ hi) (hs : ∀ l ∈ ls, 0 ≤ l.size) :
    sumPriceSize ls ≤ hi * sumSize ls := by
  induction ls with
  | nil => simp [sumPriceSize, sumSize]
  | cons a tl ih =>
    have h1 : a.price * a.size ≤ hi * a.size :=
      mul_le_mul_of_nonneg_right (hp a (by simp)) (hs a (by simp))
    have h2 : sumPriceSize tl ≤ hi * sumSize tl :=
      ih (fun l hl => hp l (by simp [hl])) (fun l hl => hs l (by simp [hl]))
    simp only [sumPriceSize, sumSize, List.map_cons, List.sum_cons] at *
    linarith [h1, h2, mul_add hi a.size ((tl.map Level.size).sum)]

theorem lo_le_sumPriceSize {ls : List Level} {lo : ℚ}
    (hp : ∀ l ∈ ls, lo ≤ l.price) (hs : ∀ l ∈ ls, 0 ≤ l.size) :
    lo * sumSize ls ≤ sumPriceSize ls := by
  induction ls with
  | nil => simp [sumPriceSize, sumSize]
  | cons a tl ih =>
    have h1 : lo * a.size ≤ a.price * a.size :=
      mul_le_mul_of_nonneg_right (hp a (by simp)) (hs a (by simp))
    have h2 : lo * sumSize tl ≤ sumPriceSize tl :=
      ih (fun l hl => hp l (by simp [hl])) (fun l hl => hs l (by simp [hl]))
    simp only [sumPriceSize, sumSize, List.map_cons, List.sum_cons] at *
    linarith [h1, h2, mul_add lo a.size ((tl.map Level.size).sum)]

/-- C3 counterexample: a book with both sides carrying positive volume whose
vwap_mid (0.1088) falls strictly below best_bid (0.5) — the bid volume is
concentrated at a deep level — so vwap_mid does not lie in
[best_bid, best_ask]. -/
theorem c3_vwap_mid_counterexample :
    0 < (get_order_book_metrics [⟨1/2, 1⟩, ⟨1/10, 100⟩] [⟨3/5, 1⟩]
        TOP_LEVELS).bid_volume
    ∧ 0 < (get_order_book_metrics [⟨1/2, 1⟩, ⟨1/10, 100⟩] [⟨3/5, 1⟩]
        TOP_LEVELS).ask_volume
    ∧ (get_order_book_metrics [⟨1/2, 1⟩, ⟨1/10, 100⟩] [⟨3/5, 1⟩]
        TOP_LEVELS).best_bid = 1/2
    ∧ (get_order_book_metrics [⟨1/2, 1⟩, ⟨1/10, 100⟩] [⟨3/5, 1⟩]
        TOP_LEVELS).best_ask = 3/5
    ∧ (get_order_book_metrics [⟨1/2, 1⟩, ⟨1/10, 100⟩] [⟨3/5, 1⟩]
        TOP_LEVELS).vwap_mid = 1088/10000
    ∧ ¬ ((get_order_book_metrics [⟨1/2, 1⟩, ⟨1/10, 100⟩] [⟨3/5, 1⟩]
          TOP_LEVELS).best_bid
        ≤ (get_order_book_metrics [⟨1/2, 1⟩, ⟨1/10, 100⟩] [⟨3/5, 1⟩]
          TOP_LEVELS).vwap_mid
      ∧ (get_order_book_metrics [⟨1/2, 1⟩, ⟨1/10, 100⟩] [⟨3/5, 1⟩]
          TOP_LEVELS).vwap_mid
        ≤ (get_order_book_metrics [⟨1/2, 1⟩, ⟨1/10, 100⟩] [⟨3/5, 1⟩]
          TOP_LEVELS).best_ask) := by
  norm_num [get_order_book_metrics, TOP_LEVELS, List.insertionSort,
    List.orderedInsert, bidGE, askLE, sumSize, sumPriceSize, vwapMid, bestPrice,
    pyRound, pyRoundInt]

/-- C3 amended: when both retained sides carry positive volume, the raw
vwap_mid (the value get_order_book_metrics rounds for display) lies within
the closed interval spanned by the retained levels' prices — every level
price bounded by [lo, hi] bounds vwap_mid by [lo, hi]; it need not lie
within [best_bid, best_ask]. -/
theorem c3_vwap_mid_amended (rawBids rawAsks : List Level) (top_n : ℕ)
    (lo hi : ℚ)
    (hbp : ∀ l ∈ rawBids, lo ≤ l.price ∧ l.price ≤ hi)
    (hap : ∀ l ∈ rawAsks, lo ≤ l.price ∧ l.price ≤ hi)
    (hbs : ∀ l ∈ rawBids, 0 ≤ l.size)
    (hak : ∀ l ∈ rawAsks, 0 ≤ l.size)
    (hbv : 0 < sumSize ((List.insertionSort bidGE rawBids).take top_n))
    (hav : 0 < sumSize ((List.insertionSort askLE rawAsks).take top_n)) :
    (get_order_book_metrics rawBids rawAsks top_n).vwap_mid
        = pyRound (vwapMid ((List.insertionSort bidGE rawBids).take top_n)
            ((List.insertionSort askLE rawAsks).take top_n)) 4
    ∧ lo ≤ vwapMid ((List.insertionSort bidGE rawBids).take top_n)
        ((List.insertionSort askLE rawAsks).take top_n)
    ∧ vwapMid ((List.insertionSort bidGE rawBids).take top_n)
        ((List.insertionSort askLE rawAsks).take top_n) ≤ hi := by
  set B := (List.insertionSort bidGE rawBids).take top_n with hB
  set A := (List.insertionSort askLE rawAsks).take top_n with hA
  have hmemB : ∀ l ∈ B, l ∈ rawBids := by
    intro l hl
    rw [hB] at hl
    exact ((List.perm_insertionSort bidGE rawBids).subset) (List.take_subset _ _ hl)
  have hmemA : ∀ l ∈ A, l ∈ rawAsks := by
    intro l hl
    rw [hA] at hl
    exact ((List.perm_insertionSort askLE rawAsks).subset) (List.take_subset _ _ hl)
  have htot : 0 < sumSize B + sumSize A := by linarith
  have hv : vwapMid B A
      = (sumPriceSize B + sumPriceSize A) / (sumSize B + sumSize A) := by
    unfold vwapMid
    rw [if_pos htot, if_pos hbv, if_pos hav]
    simp only []
    rw [div_mul_cancel₀ _ (ne_of_gt hbv), div_mul_cancel₀ _ (ne_of_gt hav)]
  refine ⟨rfl, ?_, ?_⟩
  · rw [hv, le_div_iff₀ htot]
    have g1 := lo_le_sumPriceSize (fun l hl => (hbp l (hmemB l hl)).1)
      (fun l hl => hbs l (hmemB l hl))
    have g2 := lo_le_sumPriceSize (fun l hl => (hap l (hmemA l hl)).1)
      (fun l hl => hak l (hmemA l hl))
    linarith [mul_add lo (sumSize B) (sumSize A)]
  · rw [hv, div_le_iff₀ htot]
    have g1 := sumPriceSize_le_hi (fun l hl => (hbp l (hmemB l hl)).2)
      (fun l hl => hbs l (hmemB l hl))
    have g2 := sumPriceSize_le_hi (fun l hl => (hap l (hmemA l hl)).2)
      (fun l hl => hak l (hmemA l hl))
    linarith [mul_add hi (sumSize B) (sumSize A)]

/-- C3 amended witness: the counterexample book itself, bounded by its own
level prices [0.1, 0.6]. -/
theorem c3_vwap_mid_amended_witness :
    (get_order_book_metrics [⟨1/2, 1⟩, ⟨1/10, 100⟩] [⟨3/5, 1⟩] TOP_LEVELS).vwap_mid
        = pyRound (vwapMid
            ((List.insertionSort bidGE [⟨1/2, 1⟩, ⟨1/10, 100⟩]).take TOP_LEVELS)
            ((List.insertionSort askLE [⟨3/5, 1⟩]).take TOP_LEVELS)) 4
    ∧ 1/10 ≤ vwapMid
        ((List.insertionSort bidGE [⟨1/2, 1⟩, ⟨1/10, 100⟩]).take TOP_LEVELS)
        ((List.insertionSort askLE [⟨3/5, 1⟩]).take TOP_LEVELS)
    ∧ vwapMid
        ((List.insertionSort bidGE [⟨1/2, 1⟩, ⟨1/10, 100⟩]).take TOP_LEVELS)
        ((List.insertionSort askLE [⟨3/5, 1⟩]).take TOP_LEVELS) ≤ 3/5 :=
  c3_vwap_mid_amended [⟨1/2, 1⟩, ⟨1/10, 100⟩] [⟨3/5, 1⟩] TOP_LEVELS (1/10) (3/5)
    (by intro l hl
        simp only [List.mem_cons, List.not_mem_nil, or_false] at hl
        rcases hl with h | h <;> (subst h; exact ⟨by norm_num, by norm_num⟩))
    (by intro l hl
        simp only [List.mem_cons, List.not_mem_nil, or_false] at hl
        subst hl; exact ⟨by norm_num, by norm_num⟩)
    (by intro l hl
        simp only [List.mem_cons, List.not_mem_nil, or_false] at hl
        rcases hl with h | h <;> (subst h; norm_num))
    (by intro l hl
        simp only [List.mem_cons, List.not_mem_nil, or_false] at hl
        subst hl; norm_num)
    (by norm_num [sumSize, List.insertionSort, List.orderedInsert, bidGE, askLE,
        TOP_LEVELS])
    (by norm_num [sumSize, List.insertionSort, List.orderedInsert, bidGE, askLE,
        TOP_LEVELS])

/- ── C4 ─────────────────────────────────────────────────────────────────── -/

/-- C4: consider_entry returns False — with the portfolio returned entirely
unchanged (same capital, trade counter and active-trade slot) — whenever a
trade is already open, capital is below the 1.0 minimum, secs_left is
absent, below MIN_SECS_TO_ENTER or above MAX_SECS_TO_ENTER, neither
candidate price lies in [MIN_ENTRY_PRICE, MAX_ENTRY_PRICE], or the chosen
side's relative spread (entry - bid) / entry exceeds MAX_ENTRY_SPREAD. -/
theorem c4_consider_entry_rejections (pf : Portfolio) (mq : String)
    (up down : ℚ) (secs_left : Option ℚ) (edu edd : Option Depth)
    (up_bid down_bid : Option ℚ) (now : String) :
    (pf.active_trade.isSome = true →
      pf.consider_entry mq up down secs_left edu edd up_bid down_bid now
        = (false, pf))
    ∧ (pf.capital < 1 →
      pf.consider_entry mq up down secs_left edu edd up_bid down_bid now
        = (false, pf))
    ∧ (secs_left = none →
      pf.consider_entry mq up down secs_left edu edd up_bid down_bid now
        = (false, pf))
    ∧ (∀ s : ℚ, secs_left = some s → s < MIN_SECS_TO_ENTER →
      pf.consider_entry mq up down secs_left edu edd up_bid down_bid now
        = (false, pf))
    ∧ (∀ s : ℚ, secs_left = some s → MAX_SECS_TO_ENTER < s →
      pf.consider_entry mq up down secs_left edu edd up_bid down_bid now
        = (false, pf))
    ∧ (¬ (MIN_ENTRY_PRICE ≤ up ∧ up ≤ MAX_ENTRY_PRICE) →
       ¬ (MIN_ENTRY_PRICE ≤ down ∧ down ≤ MAX_ENTRY_PRICE) →
      pf.consider_entry mq up down secs_left edu edd up_bid down_bid now
        = (false, pf))
    ∧ (∀ b : ℚ, up_bid = some b → (MIN_ENTRY_PRICE ≤ up ∧ up ≤ MAX_ENTRY_PRICE) →
       0 < b → MAX_ENTRY_SPREAD < (up - b) / up →
      pf.consider_entry mq up down secs_left edu edd up_bid down_bid now
        = (false, pf))
    ∧ (∀ b : ℚ, down_bid = some b →
       ¬ (MIN_ENTRY_PRICE ≤ up ∧ up ≤ MAX_ENTRY_PRICE) →
       (MIN_ENTRY_PRICE ≤ down ∧ down ≤ MAX_ENTRY_PRICE) →
       0 < b → MAX_ENTRY_SPREAD < (down - b) / down →
      pf.consider_entry mq up down secs_left edu edd up_bid down_bid now
        = (false, pf)) := by
  refine ⟨?_, ?_, ?_, ?_, ?_, ?_, ?_, ?_⟩
  · intro h
    simp [Portfolio.consider_entry, h]
  · intro h
    cases secs_left with
    | none => simp [Portfolio.consider_entry, h]
    | some s => simp [Portfolio.consider_entry, h]
  · intro h
    subst h
    simp [Portfolio.consider_entry]
  · intro s hsec h
    subst hsec
    simp [Portfolio.consider_entry, h]
  · intro s hsec h
    subst hsec
    have hns : ¬ s < MIN_SECS_TO_ENTER := by
      rw [MIN_SECS_TO_ENTER]
      rw [MAX_SECS_TO_ENTER] at h
      linarith
    simp [Portfolio.consider_entry, hns, h]
  · intro hup hdn
    cases secs_left with
    | none => simp [Portfolio.consider_entry]
    | some s => simp [Portfolio.consider_entry, hup, hdn]
  · intro b hbid hup hb hsp
    subst hbid
    have h0up : (0:ℚ) < up := by
      have : (0:ℚ) < MIN_ENTRY_PRICE := by rw [MIN_ENTRY_PRICE]; norm_num
      linarith [hup.1]
    cases secs_left with
    | none => simp [Portfolio.consider_entry]
    | some s =>
      simp [Portfolio.consider_entry, Portfolio.considerSide, hup, hb, h0up, hsp]
  · intro b hbid hup hdn hb hsp
    subst hbid
    have h0dn : (0:ℚ) < down := by
      have : (0:ℚ) < MIN_ENTRY_PRICE := by rw [MIN_ENTRY_PRICE]; norm_num
      linarith [hdn.1]
    cases secs_left with
    | none => simp [Portfolio.consider_entry]
    | some s =>
      simp [Portfolio.consider_entry, Portfolio.considerSide, hup, hdn, hb, h0dn,
        hsp]

/-- A fresh portfolio for witnesses: Portfolio(100.0, 0.04). -/
def pf0w : Portfolio := Portfolio.init 100 (4/100)

/-- C4 witness: a missing secs_left is rejected with the portfolio intact. -/
theorem c4_consider_entry_rejections_witness :
    pf0w.consider_entry "q" (2/10) (8/10) none none none none none "now"
      = (false, pf0w) :=
  (c4_consider_entry_rejections pf0w "q" (2/10) (8/10) none none none none none
    "now").2.2.1 rfl

/- ── C5 ─────────────────────────────────────────────────────────────────── -/

/-- A trade whose 4-decimal share count has an odd last digit, so half of it
is not representable in 4 decimals: shares = 3.3333. -/
def c5Trade : Trade := Trade.new 3 "m" Direction.UP (3/10) (33333/10000) 1 "t" 120

/-- C5 counterexample: executing the partial exit on a trade with
shares = 3.3333 reduces shares_remaining by 1.6666 (the rounded half),
which is not exactly PARTIAL_EXIT_PCT * shares = 1.66665. -/
theorem c5_partial_exit_counterexample :
    c5Trade.shares - ((c5Trade.do_partial_exit (1/2)).1).shares_remaining
      ≠ PARTIAL_EXIT_PCT * c5Trade.shares := by
  norm_num [c5Trade, Trade.new, Trade.do_partial_exit, estimate_fee, FEE_RATE,
    PARTIAL_EXIT_PCT, pyRound, pyRoundInt]

/-- C5 amended: for an open trade whose share count is a 4-decimal value (as
the entry sizing produces), executing the partial exit at any price reduces
shares_remaining by exactly round(PARTIAL_EXIT_PCT * shares, 4) — the
configured fraction of the original share count rounded to 4 decimals —
and marks the stage done; afterwards should_partial_exit is False at every
price, so check_exits never returns PARTIAL_TP again and shares_remaining
is reduced at most once. -/
theorem c5_partial_exit_amended (t : Trade) (p : ℚ)
    (h0 : t.partial_exit_done = false)
    (h4 : ∃ m : ℤ, t.shares * 10 ^ 4 = m) :
    t.shares - ((t.do_partial_exit p).1).shares_remaining
        = pyRound (t.shares * PARTIAL_EXIT_PCT) 4
    ∧ ((t.do_partial_exit p).1).partial_exit_done = true
    ∧ (∀ q : ℚ, ((t.do_partial_exit p).1).should_partial_exit q = false)
    ∧ (∀ (pf : Portfolio) (up down : ℚ) (s : Option ℚ),
        pf.active_trade = some ((t.do_partial_exit p).1) →
        pf.check_exits up down s ≠ some "PARTIAL_TP") := by
  obtain ⟨m, hm⟩ := h4
  obtain ⟨k, hk⟩ := pyRound_spec (t.shares * PARTIAL_EXIT_PCT) 4
  have hpe : ∀ q : ℚ, ((t.do_partial_exit p).1).should_partial_exit q = false := by
    intro q
    unfold Trade.should_partial_exit
    simp [Trade.do_partial_exit]
  refine ⟨?_, rfl, hpe, ?_⟩
  · have hrem : ((t.do_partial_exit p).1).shares_remaining
        = pyRound (t.shares - pyRound (t.shares * PARTIAL_EXIT_PCT) 4) 4 := rfl
    rw [hrem]
    rw [pyRound_of_eq_int (m := m - k) (by push_cast; linear_combination hm - hk)]
    ring
  · intro pf up down s hpf
    unfold Portfolio.check_exits
    rw [hpf]
    simp only [hpe]
    simp only [Bool.false_eq_true, if_false]
    split
    · simp
    · cases s with
      | none => simp
      | some v =>
        simp only []
        split
        · split <;> simp
        · simp

/-- C5 amended witness: a trade with shares = 5.0 (4-decimal), partial exit
at 0.5 reduces shares_remaining by round(5 * 0.5, 4). -/
theorem c5_partial_exit_amended_witness :
    (Trade.new 1 "m" Direction.UP (2/10) 5 1 "t" 120).shares
        - (((Trade.new 1 "m" Direction.UP (2/10) 5 1 "t" 120).do_partial_exit
            (1/2)).1).shares_remaining
      = pyRound ((Trade.new 1 "m" Direction.UP (2/10) 5 1 "t" 120).shares
          * PARTIAL_EXIT_PCT) 4 :=
  (c5_partial_exit_amended (Trade.new 1 "m" Direction.UP (2/10) 5 1 "t" 120)
    (1/2) rfl ⟨50000, by norm_num [Trade.new]⟩).1

/- ── C6 ─────────────────────────────────────────────────────────────────── -/

/-- The open trade cancelled in the C6 evidence (bet_size 4, no partial
exit; the bet was already debited, leaving capital at 96). -/
def c6Trade : Trade := Trade.new 1 "m" Direction.UP (3/10) (133333/10000) 4 "t" 120

def c6Pf : Portfolio :=
  { initial_capital := 100, capital := 96, trade_pct := 4/100
    active_trade := some c6Trade, closed_trades := [], pnl_history := [0]
    trade_counter := 1 }

/-- C6 evidence: cancel_active_trade computes no price-based P&L (the
recorded trade keeps pnl = none) and charges no fee (exit_fee stays 0), but
it leaves portfolio capital unchanged at 96 — it does NOT return the unsold
tranche's committed capital (bet_size = 4) as the claim states, so the
committed capital is silently lost from the ledger. -/
theorem c6_cancel_keeps_capital :
    (c6Pf.cancel_active_trade).capital = c6Pf.capital
    ∧ c6Pf.capital = 96
    ∧ c6Trade.bet_size = 4
    ∧ (c6Pf.cancel_active_trade).capital ≠ c6Pf.capital + c6Trade.bet_size
    ∧ (c6Pf.cancel_active_trade).closed_trades
        = [{ c6Trade with status := "CANCELLED", exit_reason := some "FORCED" }]
    ∧ c6Trade.pnl = none
    ∧ c6Trade.exit_fee = 0
    ∧ (c6Pf.cancel_active_trade).active_trade = none := by
  refine ⟨rfl, rfl, rfl, ?_, rfl, rfl, rfl, rfl⟩
  norm_num [c6Pf, c6Trade, Trade.new, Portfolio.cancel_active_trade]

/- ── C7 ─────────────────────────────────────────────────────────────────── -/

/-- C7: at any current price at or below SL_PRICE_ABS the stop-loss fires
regardless of partial-exit progress: should_sl is true (its definition
never reads partial_exit_done), check_exits returns "SL" for the trade as
it stands, and still returns "SL" after a partial exit (at any partial
price q) has been applied to the same trade. -/
theorem c7_sl_fires_despite_partial_stage (pf : Portfolio) (t : Trade)
    (up down : ℚ) (s : Option ℚ) (q : ℚ)
    (ha : pf.active_trade = some t)
    (hcp : pf.current_price_for_trade up down ≤ SL_PRICE_ABS) :
    t.should_sl (pf.current_price_for_trade up down) = true
    ∧ pf.check_exits up down s = some "SL"
    ∧ ({ pf with active_trade := some ((t.do_partial_exit q).1) } :
        Portfolio).check_exits up down s = some "SL" := by
  set cp := pf.current_price_for_trade up down with hcpdef
  have hcpm : cp = match t.direction with
      | Direction.UP => up
      | Direction.DOWN => down := by
    rw [hcpdef]
    unfold Portfolio.current_price_for_trade
    rw [ha]
  have hsl : t.should_sl cp = true := by
    simp [Trade.should_sl, hcp]
  have hpe : t.should_partial_exit cp = false := by
    unfold Trade.should_partial_exit
    have hlt : ¬ TARGET_PRICE ≤ cp := by
      rw [TARGET_PRICE]
      rw [SL_PRICE_ABS] at hcp
      intro hq
      linarith
    cases hd : t.partial_exit_done <;> cases hdir : t.direction <;> simp [hlt]
  refine ⟨hsl, ?_, ?_⟩
  · unfold Portfolio.check_exits
    rw [ha]
    simp only [← hcpdef, hpe, hsl]
    simp
  · have hcp2 : ({ pf with active_trade := some ((t.do_partial_exit q).1) } :
        Portfolio).current_price_for_trade up down = cp := by
      unfold Portfolio.current_price_for_trade
      rw [hcpm]
      rfl
    have hpe2 : ((t.do_partial_exit q).1).should_partial_exit cp = false := by
      unfold Trade.should_partial_exit
      simp [Trade.do_partial_exit]
    have hsl2 : ((t.do_partial_exit q).1).should_sl cp = true := by
      simp [Trade.should_sl, hcp]
    unfold Portfolio.check_exits
    rw [hcp2]
    simp only [hpe2, hsl2]
    simp

/-- The open trade used by the C7 and C9 witnesses: UP, entry 0.2,
shares 5.0, bet 1.00. -/
def t9w : Trade := Trade.new 2 "m" Direction.UP (2/10) 5 1 "t" 200

def pf9w : Portfolio :=
  { initial_capital := 100, capital := 99, trade_pct := 4/100
    active_trade := some t9w, closed_trades := [], pnl_history := [0]
    trade_counter := 2 }

/-- C7 witness: at price 0.05 ≤ SL_PRICE_ABS the exit check returns SL. -/
theorem c7_sl_fires_despite_partial_stage_witness :
    pf9w.check_exits (5/100) (95/100) (some 100) = some "SL" :=
  (c7_sl_fires_despite_partial_stage pf9w t9w (5/100) (95/100) (some 100) (47/100) rfl
    (by norm_num [Portfolio.current_price_for_trade, pf9w, t9w, Trade.new,
      SL_PRICE_ABS])).2.1

/- ── C8 ─────────────────────────────────────────────────────────────────── -/

theorem compute_signal_spread_penalty_eq (combined_obi : ℚ) (w : List ℚ)
    (threshold : ℚ) (up_ob down_ob : Option BookMetrics)
    (ps : Option PriceSnap) :
    (compute_signal combined_obi w threshold up_ob down_ob ps).spread_penalty
      = spreadPenalty up_ob := rfl

theorem compute_signal_combined_eq (combined_obi : ℚ) (w : List ℚ)
    (threshold : ℚ) (up_ob down_ob : Option BookMetrics)
    (ps : Option PriceSnap) :
    (compute_signal combined_obi w threshold up_ob down_ob ps).combined
      = pyRound (fusedScore combined_obi w up_ob down_ob ps
          * spreadPenalty up_ob) 4 := rfl

theorem fusedScore_spec (combined_obi : ℚ) (w : List ℚ)
    (up_ob down_ob : Option BookMetrics) (ps : Option PriceSnap) :
    ∃ m : ℤ, fusedScore combined_obi w up_ob down_ob ps * 10 ^ 4 = m := by
  unfold fusedScore
  cases ps with
  | none => exact pyRound_spec _ 4
  | some p =>
    simp only []
    split
    · exact pyRound_spec _ 4
    · exact pyRound_spec _ 4

/-- C8: in compute_signal, when the primary (UP) book's spread_pct exceeds
0.08 the fused score is multiplied by max(0.3, 1 - (spread_pct - 0.08) * 5)
(and that factor is reported as spread_penalty); otherwise — spread_pct at
or below 0.08, or no UP book — the penalty is 1 and the fused score passes
through unchanged; in particular spread_pct = 0.12 gives penalty 0.8. -/
theorem c8_spread_penalty (combined_obi : ℚ) (w : List ℚ) (threshold : ℚ)
    (down_ob : Option BookMetrics) (ps : Option PriceSnap) (u : BookMetrics) :
    (8/100 < u.spread_pct →
      (compute_signal combined_obi w threshold (some u) down_ob ps).spread_penalty
          = max (3/10) (1 - (u.spread_pct - 8/100) * 5)
      ∧ (compute_signal combined_obi w threshold (some u) down_ob ps).combined
          = pyRound (fusedScore combined_obi w (some u) down_ob ps
              * max (3/10) (1 - (u.spread_pct - 8/100) * 5)) 4)
    ∧ (¬ 8/100 < u.spread_pct →
      (compute_signal combined_obi w threshold (some u) down_ob ps).spread_penalty
          = 1
      ∧ (compute_signal combined_obi w threshold (some u) down_ob ps).combined
          = fusedScore combined_obi w (some u) down_ob ps)
    ∧ ((compute_signal combined_obi w threshold none down_ob ps).spread_penalty = 1
      ∧ (compute_signal combined_obi w threshold none down_ob ps).combined
          = fusedScore combined_obi w none down_ob ps)
    ∧ (u.spread_pct = 12/100 →
      (compute_signal combined_obi w threshold (some u) down_ob ps).spread_penalty
          = 8/10) := by
  have hpen : ∀ v : Option BookMetrics,
      (compute_signal combined_obi w threshold v down_ob ps).spread_penalty
        = spreadPenalty v := fun v =>
    compute_signal_spread_penalty_eq combined_obi w threshold v down_ob ps
  have hcomb : ∀ v : Option BookMetrics,
      (compute_signal combined_obi w threshold v down_ob ps).combined
        = pyRound (fusedScore combined_obi w v down_ob ps * spreadPenalty v) 4 :=
    fun v => compute_signal_combined_eq combined_obi w threshold v down_ob ps
  have hidem : ∀ v : Option BookMetrics,
      pyRound (fusedScore combined_obi w v down_ob ps) 4
        = fusedScore combined_obi w v down_ob ps := by
    intro v
    obtain ⟨m, hm⟩ := fusedScore_spec combined_obi w v down_ob ps
    exact pyRound_of_eq_int hm
  refine ⟨?_, ?_, ?_, ?_⟩
  · intro h
    rw [hpen, hcomb]
    simp only [spreadPenalty]
    rw [if_pos h]
    exact ⟨by trivial, by trivial⟩
  · intro h
    rw [hpen, hcomb]
    simp only [spreadPenalty]
    rw [if_neg h]
    rw [mul_one]
    exact ⟨by trivial, hidem _⟩
  · rw [hpen, hcomb]
    simp only [spreadPenalty]
    rw [mul_one]
    exact ⟨by trivial, hidem _⟩
  · intro h
    rw [hpen]
    simp only [spreadPenalty]
    rw [h]
    rw [if_pos (by norm_num)]
    rw [max_eq_right (by norm_num)]
    norm_num

/-- An UP-side BookMetrics with spread_pct = 0.12 for the C8 witness. -/
def u8w : BookMetrics :=
  { bid_volume := 10, ask_volume := 10, total_volume := 20, obi := 0
    depth_pressure := 0, best_bid := 22/100, best_ask := 25/100, spread := 3/100
    spread_pct := 12/100, vwap_mid := 235/1000, num_bids := 1, num_asks := 1
    top_bids := [(22/100, 10)], top_asks := [(25/100, 10)] }

/-- C8 witness: spread_pct = 0.12 yields spread_penalty 0.8. -/
theorem c8_spread_penalty_witness :
    (compute_signal 0 [] (18/100) (some u8w) none none).spread_penalty = 8/10 :=
  (c8_spread_penalty 0 [] (18/100) none none u8w).2.2.2 rfl

/- ── C9 ─────────────────────────────────────────────────────────────────── -/

/-- C9: with at most 30 seconds left and a current price that triggers
neither the partial-TP stage (TARGET_PRICE reached with the stage not yet
done) nor the stop-loss (price ≤ SL_PRICE_ABS), check_exits returns "LATE"
exactly when the trade's unrealized P&L at that price is strictly positive,
and None otherwise — a losing position is held to binary resolution. -/
theorem c9_late_exit_iff_profit (pf : Portfolio) (t : Trade)
    (up down : ℚ) (s : ℚ)
    (ha : pf.active_trade = some t)
    (hpt : ¬ (t.partial_exit_done = false
        ∧ TARGET_PRICE ≤ pf.current_price_for_trade up down))
    (hsl : ¬ pf.current_price_for_trade up down ≤ SL_PRICE_ABS)
    (hs : s ≤ 30) :
    pf.check_exits up down (some s) =
      if 0 < t.unrealized_pnl (pf.current_price_for_trade up down) then some "LATE"
      else none := by
  set cp := pf.current_price_for_trade up down with hcpdef
  have hpe : t.should_partial_exit cp = false := by
    unfold Trade.should_partial_exit
    cases hd : t.partial_exit_done
    · have hlt : ¬ TARGET_PRICE ≤ cp := fun hq => hpt ⟨hd, hq⟩
      cases hdir : t.direction <;> simp [hlt]
    · simp
  have hslf : t.should_sl cp = false := by
    simp [Trade.should_sl, hsl]
  unfold Portfolio.check_exits
  rw [ha]
  simp only [← hcpdef, hpe, hslf]
  simp [hs]

/-- C9 witness: trade t9w at price 0.3 with 20s left has unrealized pnl
0.4703 > 0, so check_exits returns LATE. -/
theorem c9_late_exit_iff_profit_witness :
    pf9w.check_exits (3/10) (7/10) (some 20) = some "LATE" := by
  have h := c9_late_exit_iff_profit pf9w t9w (3/10) (7/10) 20 rfl
    (by intro hcon
        have h2 := hcon.2
        norm_num [Portfolio.current_price_for_trade, pf9w, t9w, Trade.new,
          TARGET_PRICE] at h2)
    (by norm_num [Portfolio.current_price_for_trade, pf9w, t9w, Trade.new,
        SL_PRICE_ABS])
    (by norm_num)
  rw [h, if_pos]
  norm_num [Portfolio.current_price_for_trade, pf9w, t9w, Trade.new,
    Trade.unrealized_pnl, estimate_fee, FEE_RATE, PARTIAL_EXIT_PCT,
    pyRound, pyRoundInt]

/- ── C10 ────────────────────────────────────────────────────────────────── -/

/-- A trade that wins binary resolution but is recorded LOSS: entered at
0.90, partial stage executed at a collapsed bid of 0.01 realising a loss
that the winning final tranche cannot recover. -/
def c10LossTrade : Trade :=
  ((Trade.new 7 "m" Direction.UP (9/10) (pyRound ((1:ℚ)/(9/10)) 4) 1 "t"
    120).do_partial_exit (1/100)).1

/-- C10: after close_binary or close_market the recorded status is "WIN"
exactly when the trade's total recorded pnl (partial plus final tranche,
net of fees) is strictly positive and "LOSS" otherwise (zero pnl included),
independent of the binary outcome — witnessed by a trade that wins
resolution yet is recorded LOSS. -/
theorem c10_status_iff_pnl_sign :
    (∀ (t : Trade) (won : Bool) (ep : ℚ) (r : String),
      ((t.close_binary won ep r).1.status = "WIN"
          ↔ 0 < (t.close_binary won ep r).2)
      ∧ ((t.close_binary won ep r).1.status = "LOSS"
          ↔ ¬ 0 < (t.close_binary won ep r).2))
    ∧ (∀ (t : Trade) (ep : ℚ) (r : String),
      ((t.close_market ep r).1.status = "WIN" ↔ 0 < (t.close_market ep r).2)
      ∧ ((t.close_market ep r).1.status = "LOSS"
          ↔ ¬ 0 < (t.close_market ep r).2))
    ∧ (c10LossTrade.close_binary true 1 "EXPIRE").1.status = "LOSS" := by
  refine ⟨?_, ?_, ?_⟩
  · intro t won ep r
    constructor
    · simp only [Trade.close_binary]
      split_ifs with h <;> simp [h]
    · simp only [Trade.close_binary]
      split_ifs with h <;> simp [h]
  · intro t ep r
    constructor
    · simp only [Trade.close_market]
      split_ifs with h <;> simp [h]
    · simp only [Trade.close_market]
      split_ifs with h <;> simp [h]
  · norm_num [c10LossTrade, Trade.new, Trade.do_partial_exit, Trade.close_binary,
      Trade.close_binary_final_pnl, estimate_fee, FEE_RATE, PARTIAL_EXIT_PCT,
      pyRound, pyRoundInt]
